import Mathlib

/-
Shallow embedding of ShadowEditor.Web/src/player/Player.js.

The player orchestrates seven subsystem objects (loader, event, control,
audio, playerRenderer, animation, physics), a THREE.Clock, and a mount
container.  We model the orchestrator's observable behaviour as a state
record plus a trace of actions (calls into subsystems, the dispatch
channel, the DOM and the clock), translated line by line from the source.
External collaborators (JSON.parse of the host, the loader's resolved
payload, the container's dimensions) are parameters.
-/

namespace ShadowPlayer

/-- The seven subsystem fields constructed in the Player constructor
(Player.js lines 41-47): loader, event, control, audio, playerRenderer,
animation, physics. -/
inductive Subsystem
  | loader
  | event
  | control
  | audio
  | playerRenderer
  | animation
  | physics
deriving DecidableEq, Fintype

/-- One observable step taken by the orchestrator: a call into a subsystem,
the dispatch channel, the DOM, the UI message channel or the clock. -/
inductive Action
  | uiMsg (msg : String)
  | showContainer
  | hideContainer
  | loaderCreate
  | dispatchInit
  | create (s : Subsystem)
  | init (s : Subsystem)
  | startHook (s : Subsystem)
  | stopHook (s : Subsystem)
  | dispose (s : Subsystem)
  | update (s : Subsystem)
  | clockStart
  | clockStop
  | clockGetDelta
  | warnNoCamera
  | appendRendererDom
  | removeRendererDom
  | clearSceneChildren
  | nullRefs
  | scheduleFrame
  | statsBegin
  | statsEnd
deriving DecidableEq

/-- A THREE.PerspectiveCamera as far as Player.js observes it: the
constructor arguments, the number of children added via camera.add
(the audio listener), and how often updateProjectionMatrix ran. -/
structure Camera where
  fov : ℕ
  aspect : ℚ
  near : ℚ
  far : ℕ
  listeners : ℕ
  projectionUpdates : ℕ
deriving DecidableEq

/-- A THREE.WebGLRenderer as far as Player.js observes it: the size set by
renderer.setSize. -/
structure Renderer where
  width : ℕ
  height : ℕ
deriving DecidableEq

/-- A THREE.Scene as far as Player.js observes it: the length of its
children array. -/
structure Scene where
  childCount : ℕ
deriving DecidableEq

/-- The THREE.Clock, constructed not running (new THREE.Clock(false)). -/
structure Clock where
  running : Bool
deriving DecidableEq

/-- The mount container's dimensions (container.dom.clientWidth and
clientHeight). -/
structure Container where
  width : ℕ
  height : ℕ
deriving DecidableEq

/-- The mutable fields of the Player instance that the orchestrator code
reads or writes. -/
structure PlayerState where
  isPlaying : Bool
  scene : Option Scene
  camera : Option Camera
  renderer : Option Renderer
  clock : Clock
  containerVisible : Bool
  rendererDomAttached : Bool
deriving DecidableEq

/-- The payload the loader's create promise resolves with (obj in
Player.js line 117): optional camera, renderer, audioListener and scene
(scripts and animations are only forwarded to subsystems and carry no
structure the orchestrator inspects). -/
structure LoadedObj where
  camera : Option Camera
  renderer : Option Renderer
  audioListener : Bool
  scene : Option Scene
deriving DecidableEq

/-- Whether each of the six create promises dispatched in start (Player.js
lines 122-127) resolves (true) or rejects (false). -/
structure CreateOutcome where
  event : Bool
  control : Bool
  audio : Bool
  playerRenderer : Bool
  animation : Bool
  physics : Bool
deriving DecidableEq

/-- Promise.all of the six create promises resolves iff all six resolve. -/
def allOk (oc : CreateOutcome) : Bool :=
  oc.event && oc.control && oc.audio && oc.playerRenderer && oc.animation && oc.physics

/-- The message shown when sceneData is not a string (Player.js line 96). -/
def invalidInputMsg : String := "需要字符串类型的场景数据参数！"

/-- The message shown when sceneData fails to parse as JSON (Player.js
line 105). -/
def parseErrorMsg : String := "无法解析json类型的场景数据！"

/-- A JavaScript value passed as the sceneData argument; typeof
distinguishes the string case from everything else. -/
inductive JsValue
  | str (s : String)
  | num (n : Int)
  | bool (b : Bool)
  | other
deriving DecidableEq

/-- The default camera synthesized when the payload has none (Player.js
lines 182-187): new THREE.PerspectiveCamera(50, width/height, 0.1, 1000). -/
def defaultCamera (c : Container) : Camera :=
  { fov := 50
    aspect := (c.width : ℚ) / (c.height : ℚ)
    near := (1 : ℚ) / 10
    far := 1000
    listeners := 0
    projectionUpdates := 0 }

/-- Player.prototype.initPlayer (lines 175-203): pick or synthesize the
camera (warning when synthesizing), update its projection matrix, pick or
synthesize the renderer, size it to the container and attach its DOM
element, add an audio listener to the camera, pick or synthesize the
scene.  Returns the new state and the trace of observable actions. -/
def initPlayer (c : Container) (st : PlayerState) (obj : LoadedObj) :
    PlayerState × List Action :=
  let camActs : Camera × List Action :=
    match obj.camera with
    | some cam => (cam, [])
    | none => (defaultCamera c, [Action.warnNoCamera])
  let cam1 : Camera :=
    { camActs.1 with projectionUpdates := camActs.1.projectionUpdates + 1 }
  let r0 : Renderer := obj.renderer.getD { width := 0, height := 0 }
  let r1 : Renderer := { r0 with width := c.width, height := c.height }
  let cam2 : Camera := { cam1 with listeners := cam1.listeners + 1 }
  let sc : Scene := obj.scene.getD { childCount := 0 }
  ({ st with
      camera := some cam2
      renderer := some r1
      scene := some sc
      rendererDomAttached := true },
    camActs.2 ++ [Action.appendRendererDom])

/-- The continuation of loader.create(jsons).then (Player.js lines
117-135): initPlayer, the init broadcast, the six concurrent create
dispatches, registration of the Promise.all continuation, and - still
synchronously, before the join can resolve - requestAnimationFrame. -/
def loaderThen (c : Container) (st : PlayerState) (obj : LoadedObj) :
    PlayerState × List Action :=
  let p := initPlayer c st obj
  (p.1,
    p.2 ++
      [Action.dispatchInit,
        Action.create .event, Action.create .control, Action.create .audio,
        Action.create .playerRenderer, Action.create .animation,
        Action.create .physics,
        Action.scheduleFrame])

/-- The continuation of Promise.all([...]).then (Player.js lines 129-133):
event.init(), clock.start(), event.start(). -/
def joinThen (st : PlayerState) : PlayerState × List Action :=
  ({ st with clock := { running := true } },
    [Action.init .event, Action.clockStart, Action.startHook .event])

/-- The asynchronous part of a session bootstrap, single-threaded JS
semantics: the loader continuation runs to completion (its
requestAnimationFrame call included), then the Promise.all continuation
runs iff all six creates resolved; if any rejects the join continuation
never runs and the rejection is unhandled. -/
def startAsync (c : Container) (st : PlayerState) (obj : LoadedObj)
    (oc : CreateOutcome) : PlayerState × List Action :=
  let p1 := loaderThen c st obj
  if allOk oc then
    let p2 := joinThen p1.1
    (p2.1, p1.2 ++ p2.2)
  else p1

/-- Player.prototype.start (lines 94-136).  parse abstracts the host's
JSON.parse (whether the string parses); loaded abstracts the payload the
external loader resolves with; oc records which of the six create
promises resolve.  In source order: the typeof check, the JSON.parse
try/catch, the isPlaying guard, setting isPlaying, unhiding the
container, and dispatching loader.create whose continuation is
startAsync. -/
def start (parse : String → Bool) (loaded : LoadedObj) (c : Container)
    (st : PlayerState) (sceneData : JsValue) (oc : CreateOutcome) :
    PlayerState × List Action :=
  match sceneData with
  | .str s =>
    if parse s then
      if st.isPlaying then (st, [])
      else
        let st1 := { st with isPlaying := true, containerVisible := true }
        let p := startAsync c st1 loaded oc
        (p.1, Action.showContainer :: Action.loaderCreate :: p.2)
    else (st, [Action.uiMsg parseErrorMsg])
  | _ => (st, [Action.uiMsg invalidInputMsg])

/-- Player.prototype.stop (lines 141-169).  Returns the new state, the
action trace, and whether a TypeError escaped: when this.renderer is null
the member access this.renderer.domElement on line 159 throws, and when
this.scene is null line 162 throws; every action before the throwing line
has already happened. -/
def stop (st : PlayerState) : PlayerState × List Action × Bool :=
  if st.isPlaying then
    let st1 := { st with isPlaying := false }
    let acts0 : List Action :=
      [Action.stopHook .event,
        Action.dispose .loader, Action.dispose .event, Action.dispose .control,
        Action.dispose .audio, Action.dispose .playerRenderer,
        Action.dispose .animation, Action.dispose .physics]
    match st1.renderer with
    | none => (st1, acts0, true)
    | some _ =>
      let st2 := { st1 with rendererDomAttached := false, containerVisible := false }
      let acts1 := acts0 ++ [Action.removeRendererDom, Action.hideContainer]
      match st2.scene with
      | none => (st2, acts1, true)
      | some _ =>
        ({ st2 with
            scene := none
            camera := none
            renderer := none
            clock := { running := false } },
          acts1 ++ [Action.clearSceneChildren, Action.nullRefs, Action.clockStop],
          false)
  else (st, [], false)

/-- Player.prototype.animate (lines 205-227): one frame tick.  If
isPlaying is false the tick returns at once, performing no update and not
rescheduling; otherwise the stats bracket (when configured), getDelta,
the five updates in source order, and the requestAnimationFrame
reschedule.  The tick does not write any field of the player state we
model. -/
def animate (st : PlayerState) (hasStats : Bool) : List Action :=
  if st.isPlaying then
    (if hasStats then [Action.statsBegin] else []) ++
      [Action.clockGetDelta,
        Action.update .event, Action.update .control,
        Action.update .playerRenderer, Action.update .animation,
        Action.update .physics] ++
      (if hasStats then [Action.statsEnd] else []) ++
      [Action.scheduleFrame]
  else []

/-- Player.prototype.resize (lines 229-247): a no-op when this.camera or
this.renderer is null; otherwise sets camera.aspect to width/height,
updates the projection matrix and resizes the renderer to the container. -/
def resize (c : Container) (st : PlayerState) : PlayerState :=
  match st.camera, st.renderer with
  | some cam, some _r =>
    { st with
        camera := some
          { cam with
              aspect := (c.width : ℚ) / (c.height : ℚ)
              projectionUpdates := cam.projectionUpdates + 1 }
        renderer := some { width := c.width, height := c.height } }
  | _, _ => st

/-- Index of the first occurrence of an action in a trace (length when
absent). -/
def idxOfA (a : Action) : List Action → ℕ
  | [] => 0
  | b :: l => if b = a then 0 else idxOfA a l + 1

/-- Number of occurrences of an action in a trace. -/
def countA (a : Action) (l : List Action) : ℕ :=
  (l.filter fun b => b = a).length

/-- Whether an action is a per-frame subsystem update call. -/
def isUpdateAct : Action → Bool
  | .update _ => true
  | _ => false

/-- The player state right after construction (Player.js lines 37-50):
not playing, null scene/camera/renderer, clock constructed stopped,
container rendered hidden. -/
def initialState : PlayerState :=
  { isPlaying := false
    scene := none
    camera := none
    renderer := none
    clock := { running := false }
    containerVisible := false
    rendererDomAttached := false }

/-- A concrete 800 by 600 container used to instantiate theorems. -/
def c0 : Container := { width := 800, height := 600 }

/-- A loader payload with no camera, no renderer, no audio listener and no
scene. -/
def obj0 : LoadedObj :=
  { camera := none, renderer := none, audioListener := false, scene := none }

/-- The outcome in which all six create promises resolve. -/
def ocAll : CreateOutcome :=
  { event := true, control := true, audio := true, playerRenderer := true
    animation := true, physics := true }

/-- The outcome in which the event subsystem's create rejects and the
other five resolve. -/
def ocFail : CreateOutcome := { ocAll with event := false }

/-- A concrete camera used to instantiate theorems about live sessions. -/
def camLive : Camera :=
  { fov := 50, aspect := 1, near := (1 : ℚ) / 10, far := 1000
    listeners := 1, projectionUpdates := 1 }

/-- A concrete state of a fully bootstrapped playing session. -/
def stLive : PlayerState :=
  { isPlaying := true
    scene := some { childCount := 0 }
    camera := some camLive
    renderer := some { width := 800, height := 600 }
    clock := { running := true }
    containerVisible := true
    rendererDomAttached := true }

/-- A concrete state mid-bootstrap: start has set isPlaying but the loader
continuation has not run yet, so scene, camera and renderer are still
null. -/
def stMid : PlayerState := { initialState with isPlaying := true }

end ShadowPlayer

namespace ShadowPlayer

/-- Helper: the full action trace of a start call with a string argument
that parses, from a stopped state, as a function of the payload's camera
field and of whether the six creates all resolve. -/
theorem start_trace (parse : String → Bool) (loaded : LoadedObj) (c : Container)
    (st : PlayerState) (s : String) (oc : CreateOutcome)
    (hp : st.isPlaying = false) (hs : parse s = true) :
    (start parse loaded c st (.str s) oc).2 =
      Action.showContainer :: Action.loaderCreate ::
        ((match loaded.camera with | some _ => [] | none => [Action.warnNoCamera]) ++
          [Action.appendRendererDom, Action.dispatchInit,
            Action.create .event, Action.create .control, Action.create .audio,
            Action.create .playerRenderer, Action.create .animation,
            Action.create .physics, Action.scheduleFrame] ++
          (if allOk oc then
            [Action.init .event, Action.clockStart, Action.startHook .event]
          else [])) := by
  cases hcam : loaded.camera <;> cases h : allOk oc <;>
    simp [start, startAsync, loaderThen, initPlayer, joinThen, hs, hp, hcam, h]

/-- Helper: a start call with a string argument that parses, from a
stopped state, leaves the player in the Playing state whatever the create
outcomes. -/
theorem start_isPlaying (parse : String → Bool) (loaded : LoadedObj) (c : Container)
    (st : PlayerState) (s : String) (oc : CreateOutcome)
    (hp : st.isPlaying = false) (hs : parse s = true) :
    (start parse loaded c st (.str s) oc).1.isPlaying = true := by
  cases hcam : loaded.camera <;> cases h : allOk oc <;>
    simp [start, startAsync, loaderThen, initPlayer, joinThen, hs, hp, hcam, h]

/-- C1 counterexample: with the event subsystem's create rejecting (and
the other five resolving), the frame tick is still scheduled, the
post-join clock start never happens, the player stays in the Playing
state, and a tick on the resulting state performs updates - refuting, at
this concrete input, the claim that the first frame tick is scheduled
only after all six creates resolve and that a rejection prevents a
running frame loop.  The last conjunct shows that even when all six
resolve, the requestAnimationFrame call precedes the join continuation. -/
theorem C1_counterexample :
    allOk ocFail = false ∧
    Action.scheduleFrame ∈ (start (fun _ => true) obj0 c0 initialState (.str "scene") ocFail).2 ∧
    Action.clockStart ∉ (start (fun _ => true) obj0 c0 initialState (.str "scene") ocFail).2 ∧
    (start (fun _ => true) obj0 c0 initialState (.str "scene") ocFail).1.isPlaying = true ∧
    animate (start (fun _ => true) obj0 c0 initialState (.str "scene") ocFail).1 false ≠ [] ∧
    idxOfA Action.scheduleFrame (start (fun _ => true) obj0 c0 initialState (.str "scene") ocAll).2 <
      idxOfA Action.clockStart (start (fun _ => true) obj0 c0 initialState (.str "scene") ocAll).2 := by
  decide

/-- C1 (amended): the frame tick is scheduled synchronously right after
the six creates are dispatched, without waiting for them to resolve: it
is present in every session trace, it precedes the post-join clock start
when all creates resolve, the post-join hooks run iff all six resolve,
and the player is in the Playing state either way - so a rejected create
leaves a partially-live session rather than aborting start. -/
theorem C1_amended_frame_scheduling (parse : String → Bool) (loaded : LoadedObj)
    (c : Container) (st : PlayerState) (s : String) (oc : CreateOutcome)
    (hp : st.isPlaying = false) (hs : parse s = true) :
    Action.scheduleFrame ∈ (start parse loaded c st (.str s) oc).2 ∧
    ((Action.clockStart ∈ (start parse loaded c st (.str s) oc).2) ↔ allOk oc = true) ∧
    (allOk oc = true →
      idxOfA Action.scheduleFrame (start parse loaded c st (.str s) oc).2 <
        idxOfA Action.clockStart (start parse loaded c st (.str s) oc).2) ∧
    (start parse loaded c st (.str s) oc).1.isPlaying = true := by
  refine ⟨?_, ?_, ?_, start_isPlaying parse loaded c st s oc hp hs⟩ <;>
    rw [start_trace parse loaded c st s oc hp hs] <;>
    cases loaded.camera <;> cases h : allOk oc <;> simp [h] <;> decide

/-- C1 amended witness: the amended statement at a concrete input. -/
theorem C1_amended_witness :
    Action.scheduleFrame ∈ (start (fun _ => true) obj0 c0 initialState (.str "a") ocAll).2 ∧
    ((Action.clockStart ∈ (start (fun _ => true) obj0 c0 initialState (.str "a") ocAll).2) ↔
      allOk ocAll = true) ∧
    (allOk ocAll = true →
      idxOfA Action.scheduleFrame (start (fun _ => true) obj0 c0 initialState (.str "a") ocAll).2 <
        idxOfA Action.clockStart (start (fun _ => true) obj0 c0 initialState (.str "a") ocAll).2) ∧
    (start (fun _ => true) obj0 c0 initialState (.str "a") ocAll).1.isPlaying = true :=
  C1_amended_frame_scheduling (fun _ => true) obj0 c0 initialState "a" ocAll rfl rfl

end ShadowPlayer

namespace ShadowPlayer

/-- C2 counterexample: in a fully successful session (all six creates
resolve), the orchestrator never invokes the Controller subsystem's
init() or start() hook - refuting, at this concrete input, the claim
that the post-join hooks are invoked on each of the six subsystems. -/
theorem C2_counterexample :
    allOk ocAll = true ∧
    Action.init Subsystem.control ∉ (start (fun _ => true) obj0 c0 initialState (.str "x") ocAll).2 ∧
    Action.startHook Subsystem.control ∉ (start (fun _ => true) obj0 c0 initialState (.str "x") ocAll).2 := by
  decide

/-- C2 (amended): after all six creates resolve, the post-join hooks are
invoked only on the EventHandler subsystem: event.init() runs, then the
clock starts, then event.start(), all strictly after every create
dispatch; no other subsystem's init or start hook is ever invoked. -/
theorem C2_amended_hooks_event_only (parse : String → Bool) (loaded : LoadedObj)
    (c : Container) (st : PlayerState) (s : String) (oc : CreateOutcome)
    (hp : st.isPlaying = false) (hs : parse s = true) (hall : allOk oc = true) :
    Action.init Subsystem.event ∈ (start parse loaded c st (.str s) oc).2 ∧
    Action.startHook Subsystem.event ∈ (start parse loaded c st (.str s) oc).2 ∧
    idxOfA (Action.init Subsystem.event) (start parse loaded c st (.str s) oc).2 <
      idxOfA Action.clockStart (start parse loaded c st (.str s) oc).2 ∧
    idxOfA Action.clockStart (start parse loaded c st (.str s) oc).2 <
      idxOfA (Action.startHook Subsystem.event) (start parse loaded c st (.str s) oc).2 ∧
    (∀ s' : Subsystem, Action.create s' ∈ (start parse loaded c st (.str s) oc).2 →
      idxOfA (Action.create s') (start parse loaded c st (.str s) oc).2 <
        idxOfA (Action.init Subsystem.event) (start parse loaded c st (.str s) oc).2) ∧
    (∀ s' : Subsystem, s' ≠ Subsystem.event →
      Action.init s' ∉ (start parse loaded c st (.str s) oc).2 ∧
      Action.startHook s' ∉ (start parse loaded c st (.str s) oc).2) := by
  rw [start_trace parse loaded c st s oc hp hs]
  cases loaded.camera <;> simp [hall] <;> decide

/-- C2 amended witness: the amended statement at a concrete input. -/
theorem C2_amended_witness :
    Action.init Subsystem.event ∈ (start (fun _ => true) obj0 c0 initialState (.str "b") ocAll).2 ∧
    Action.startHook Subsystem.event ∈ (start (fun _ => true) obj0 c0 initialState (.str "b") ocAll).2 ∧
    idxOfA (Action.init Subsystem.event) (start (fun _ => true) obj0 c0 initialState (.str "b") ocAll).2 <
      idxOfA Action.clockStart (start (fun _ => true) obj0 c0 initialState (.str "b") ocAll).2 ∧
    idxOfA Action.clockStart (start (fun _ => true) obj0 c0 initialState (.str "b") ocAll).2 <
      idxOfA (Action.startHook Subsystem.event) (start (fun _ => true) obj0 c0 initialState (.str "b") ocAll).2 ∧
    (∀ s' : Subsystem, Action.create s' ∈ (start (fun _ => true) obj0 c0 initialState (.str "b") ocAll).2 →
      idxOfA (Action.create s') (start (fun _ => true) obj0 c0 initialState (.str "b") ocAll).2 <
        idxOfA (Action.init Subsystem.event) (start (fun _ => true) obj0 c0 initialState (.str "b") ocAll).2) ∧
    (∀ s' : Subsystem, s' ≠ Subsystem.event →
      Action.init s' ∉ (start (fun _ => true) obj0 c0 initialState (.str "b") ocAll).2 ∧
      Action.startHook s' ∉ (start (fun _ => true) obj0 c0 initialState (.str "b") ocAll).2) :=
  C2_amended_hooks_event_only (fun _ => true) obj0 c0 initialState "b" ocAll rfl rfl rfl

/-- C3: start with a non-string argument reports the invalid-input
message and returns with the state unchanged; start with a string that
does not parse reports the parse-error message and returns with the
state unchanged.  In each case the trace is exactly the one user-facing
message: no container unhide, no loader.create, no subsystem create, no
frame scheduling, and isPlaying keeps its prior value (false when the
player was Stopped). -/
theorem C3_invalid_input_and_parse_error (parse : String → Bool)
    (loaded : LoadedObj) (c : Container) (st : PlayerState) (oc : CreateOutcome) :
    (∀ n : Int, start parse loaded c st (.num n) oc = (st, [Action.uiMsg invalidInputMsg])) ∧
    (∀ b : Bool, start parse loaded c st (.bool b) oc = (st, [Action.uiMsg invalidInputMsg])) ∧
    start parse loaded c st .other oc = (st, [Action.uiMsg invalidInputMsg]) ∧
    (∀ s : String, parse s = false →
      start parse loaded c st (.str s) oc = (st, [Action.uiMsg parseErrorMsg])) := by
  refine ⟨fun n => rfl, fun b => rfl, rfl, fun s hs => ?_⟩
  simp [start, hs]

/-- C3 witness: start(42) and start of an unparsable string at concrete
inputs, from the freshly constructed state. -/
theorem C3_witness :
    start (fun _ => false) obj0 c0 initialState (.num 42) ocAll =
      (initialState, [Action.uiMsg invalidInputMsg]) ∧
    start (fun _ => false) obj0 c0 initialState (.str "not json") ocAll =
      (initialState, [Action.uiMsg parseErrorMsg]) :=
  ⟨(C3_invalid_input_and_parse_error (fun _ => false) obj0 c0 initialState ocAll).1 42,
    (C3_invalid_input_and_parse_error (fun _ => false) obj0 c0 initialState ocAll).2.2.2
      "not json" rfl⟩

/-- C4: start with a valid string while already Playing returns with the
state unchanged and an empty trace (no rendering context, no frame
scheduling, no subsystem create); stop while already Stopped returns
with the state unchanged, an empty trace and no exception. -/
theorem C4_idempotent_start_stop (parse : String → Bool) (loaded : LoadedObj)
    (c : Container) (st : PlayerState) (oc : CreateOutcome) (s : String) :
    (st.isPlaying = true → parse s = true →
      start parse loaded c st (.str s) oc = (st, [])) ∧
    (st.isPlaying = false → stop st = (st, [], false)) := by
  constructor
  · intro hp hs
    simp [start, hs, hp]
  · intro hp
    simp [stop, hp]

/-- C4 witness: start on a live session and stop on the fresh state. -/
theorem C4_witness :
    start (fun _ => true) obj0 c0 stLive (.str "a") ocAll = (stLive, []) ∧
    stop initialState = (initialState, [], false) :=
  ⟨(C4_idempotent_start_stop (fun _ => true) obj0 c0 stLive ocAll "a").1 rfl rfl,
    (C4_idempotent_start_stop (fun _ => true) obj0 c0 initialState ocAll "a").2 rfl⟩

/-- C5: in every session trace started by a valid start call from a
stopped state, the init notification is dispatched exactly once, strictly
after the rendering-context bootstrap's DOM attachment, and strictly
before every subsystem create dispatch; moreover every action preceding
it is part of the synchronous bootstrap (container unhide, the loader
call, the missing-camera warning, the DOM attachment). -/
theorem C5_init_broadcast_once_between (parse : String → Bool) (loaded : LoadedObj)
    (c : Container) (st : PlayerState) (s : String) (oc : CreateOutcome)
    (hp : st.isPlaying = false) (hs : parse s = true) :
    countA Action.dispatchInit (start parse loaded c st (.str s) oc).2 = 1 ∧
    idxOfA Action.appendRendererDom (start parse loaded c st (.str s) oc).2 <
      idxOfA Action.dispatchInit (start parse loaded c st (.str s) oc).2 ∧
    (∀ s' : Subsystem, Action.create s' ∈ (start parse loaded c st (.str s) oc).2 →
      idxOfA Action.dispatchInit (start parse loaded c st (.str s) oc).2 <
        idxOfA (Action.create s') (start parse loaded c st (.str s) oc).2) ∧
    (∀ a ∈ (start parse loaded c st (.str s) oc).2.take
        (idxOfA Action.dispatchInit (start parse loaded c st (.str s) oc).2),
      a = Action.showContainer ∨ a = Action.loaderCreate ∨
        a = Action.warnNoCamera ∨ a = Action.appendRendererDom) := by
  rw [start_trace parse loaded c st s oc hp hs]
  cases loaded.camera <;> cases h : allOk oc <;> simp [h] <;> decide

/-- C5 witness: the statement at a concrete input. -/
theorem C5_witness :
    countA Action.dispatchInit (start (fun _ => true) obj0 c0 initialState (.str "c") ocAll).2 = 1 ∧
    idxOfA Action.appendRendererDom (start (fun _ => true) obj0 c0 initialState (.str "c") ocAll).2 <
      idxOfA Action.dispatchInit (start (fun _ => true) obj0 c0 initialState (.str "c") ocAll).2 ∧
    (∀ s' : Subsystem, Action.create s' ∈ (start (fun _ => true) obj0 c0 initialState (.str "c") ocAll).2 →
      idxOfA Action.dispatchInit (start (fun _ => true) obj0 c0 initialState (.str "c") ocAll).2 <
        idxOfA (Action.create s') (start (fun _ => true) obj0 c0 initialState (.str "c") ocAll).2) ∧
    (∀ a ∈ (start (fun _ => true) obj0 c0 initialState (.str "c") ocAll).2.take
        (idxOfA Action.dispatchInit (start (fun _ => true) obj0 c0 initialState (.str "c") ocAll).2),
      a = Action.showContainer ∨ a = Action.loaderCreate ∨
        a = Action.warnNoCamera ∨ a = Action.appendRendererDom) :=
  C5_init_broadcast_once_between (fun _ => true) obj0 c0 initialState "c" ocAll rfl rfl

end ShadowPlayer

namespace ShadowPlayer

/-- C6: stopping a fully bootstrapped playing session performs, in this
fixed order: event.stop(), then dispose on Loader, EventHandler,
Controller, AudioSystem, Renderer, AnimationSystem, PhysicsSystem, then
the render surface DOM detach and the container hide, then the scene
children clear and the nulling of the scene/camera/renderer references,
and finally the clock stop; the resulting state is Stopped with all
three references null and the clock not running, and no exception
escapes. -/
theorem C6_teardown_order (st : PlayerState) (r : Renderer) (sc : Scene)
    (hp : st.isPlaying = true) (hr : st.renderer = some r) (hsc : st.scene = some sc) :
    stop st =
      ({ st with
          isPlaying := false
          rendererDomAttached := false
          containerVisible := false
          scene := none
          camera := none
          renderer := none
          clock := { running := false } },
        [Action.stopHook .event,
          Action.dispose .loader, Action.dispose .event, Action.dispose .control,
          Action.dispose .audio, Action.dispose .playerRenderer,
          Action.dispose .animation, Action.dispose .physics,
          Action.removeRendererDom, Action.hideContainer,
          Action.clearSceneChildren, Action.nullRefs, Action.clockStop],
        false) := by
  simp [stop, hp, hr, hsc]

/-- C6 witness: teardown of the concrete live session state. -/
theorem C6_witness :
    stop stLive =
      ({ stLive with
          isPlaying := false
          rendererDomAttached := false
          containerVisible := false
          scene := none
          camera := none
          renderer := none
          clock := { running := false } },
        [Action.stopHook .event,
          Action.dispose .loader, Action.dispose .event, Action.dispose .control,
          Action.dispose .audio, Action.dispose .playerRenderer,
          Action.dispose .animation, Action.dispose .physics,
          Action.removeRendererDom, Action.hideContainer,
          Action.clearSceneChildren, Action.nullRefs, Action.clockStop],
        false) :=
  C6_teardown_order stLive { width := 800, height := 600 } { childCount := 0 } rfl rfl rfl

/-- C7: a frame tick on a stopped state performs nothing at all (no
update, no reschedule); a tick on a playing state performs exactly the
updates EventHandler, Controller, Renderer, AnimationSystem,
PhysicsSystem in that order, each once, never updates the Loader (nor
the AudioSystem), and reschedules exactly once, as its last action. -/
theorem C7_frame_update_order (st : PlayerState) (hasStats : Bool) :
    (st.isPlaying = false → animate st hasStats = []) ∧
    (st.isPlaying = true →
      (animate st hasStats).filter isUpdateAct =
        [Action.update .event, Action.update .control,
          Action.update .playerRenderer, Action.update .animation,
          Action.update .physics] ∧
      Action.update .loader ∉ animate st hasStats ∧
      Action.update .audio ∉ animate st hasStats ∧
      countA Action.scheduleFrame (animate st hasStats) = 1 ∧
      (animate st hasStats).getLast? = some Action.scheduleFrame) := by
  cases h : st.isPlaying <;> cases hasStats <;> simp [animate, h] <;> decide

/-- C7 witness: a tick on the stopped fresh state and on the live state
with the stats overlay configured. -/
theorem C7_witness :
    animate initialState false = [] ∧
    (animate stLive true).filter isUpdateAct =
      [Action.update .event, Action.update .control,
        Action.update .playerRenderer, Action.update .animation,
        Action.update .physics] ∧
    Action.update .loader ∉ animate stLive true :=
  ⟨(C7_frame_update_order initialState false).1 rfl,
    ((C7_frame_update_order stLive true).2 rfl).1,
    ((C7_frame_update_order stLive true).2 rfl).2.1⟩

/-- C8: the rendering-context bootstrap synthesizes, when the payload has
no camera, a default perspective camera whose aspect ratio is container
width over container height (fov 50, near 0.1, far 1000) carrying the
attached audio listener; the renderer (whether from the payload or
synthesized) is sized to the container and its DOM element attached;
when the payload has a camera, the audio listener is attached to it; and
when the payload has no scene an empty one is synthesized. -/
theorem C8_bootstrap_defaults (c : Container) (st : PlayerState) (obj : LoadedObj) :
    (obj.camera = none →
      (initPlayer c st obj).1.camera = some
        { fov := 50
          aspect := (c.width : ℚ) / (c.height : ℚ)
          near := (1 : ℚ) / 10
          far := 1000
          listeners := 1
          projectionUpdates := 1 }) ∧
    (initPlayer c st obj).1.renderer = some { width := c.width, height := c.height } ∧
    (initPlayer c st obj).1.rendererDomAttached = true ∧
    (∀ cam : Camera, obj.camera = some cam →
      (initPlayer c st obj).1.camera = some
        { cam with
            listeners := cam.listeners + 1
            projectionUpdates := cam.projectionUpdates + 1 }) ∧
    (obj.scene = none → (initPlayer c st obj).1.scene = some { childCount := 0 }) := by
  cases hcam : obj.camera <;> cases hsc : obj.scene <;> cases hr : obj.renderer <;>
    simp [initPlayer, defaultCamera, hcam, hsc, hr]

/-- C8 witness: the bootstrap on a payload with no camera, no renderer
and no scene, in the 800 by 600 container. -/
theorem C8_witness :
    (initPlayer c0 initialState obj0).1.camera = some
      { fov := 50
        aspect := (c0.width : ℚ) / (c0.height : ℚ)
        near := (1 : ℚ) / 10
        far := 1000
        listeners := 1
        projectionUpdates := 1 } ∧
    (initPlayer c0 initialState obj0).1.renderer =
      some { width := c0.width, height := c0.height } ∧
    (initPlayer c0 initialState obj0).1.scene = some { childCount := 0 } :=
  ⟨(C8_bootstrap_defaults c0 initialState obj0).1 rfl,
    (C8_bootstrap_defaults c0 initialState obj0).2.1,
    (C8_bootstrap_defaults c0 initialState obj0).2.2.2.2 rfl⟩

/-- C9: resize with no active session (camera or renderer null) returns
the state unchanged, without throwing; resize with an active session sets
the camera aspect to container width over height, bumps the projection
update, and resizes the renderer to the container. -/
theorem C9_resize_guard (c : Container) (st : PlayerState) :
    ((st.camera = none ∨ st.renderer = none) → resize c st = st) ∧
    (∀ (cam : Camera) (r : Renderer), st.camera = some cam → st.renderer = some r →
      resize c st =
        { st with
            camera := some
              { cam with
                  aspect := (c.width : ℚ) / (c.height : ℚ)
                  projectionUpdates := cam.projectionUpdates + 1 }
            renderer := some { width := c.width, height := c.height } }) := by
  cases hcam : st.camera <;> cases hr : st.renderer <;>
    simp [resize, hcam, hr]

/-- C9 witness: resize on the fresh stopped state (unchanged) and on the
live session state. -/
theorem C9_witness :
    resize c0 initialState = initialState ∧
    resize c0 stLive =
      { stLive with
          camera := some
            { camLive with
                aspect := (c0.width : ℚ) / (c0.height : ℚ)
                projectionUpdates := camLive.projectionUpdates + 1 }
          renderer := some { width := c0.width, height := c0.height } } :=
  ⟨(C9_resize_guard c0 initialState).1 (Or.inl rfl),
    (C9_resize_guard c0 stLive).2 camLive { width := 800, height := 600 } rfl rfl⟩

/-- C10: stop called while Playing but before the loader continuation has
run (renderer still null) sets isPlaying to false, invokes event.stop()
and all seven dispose() calls, and then throws (the member access on the
null renderer); no later teardown step runs: the DOM detach, container
hide, reference nulling and clock stop are all absent from the trace and
the clock field is untouched. -/
theorem C10_stop_midbootstrap_throws (st : PlayerState)
    (hp : st.isPlaying = true) (hr : st.renderer = none) :
    stop st =
      ({ st with isPlaying := false },
        [Action.stopHook .event,
          Action.dispose .loader, Action.dispose .event, Action.dispose .control,
          Action.dispose .audio, Action.dispose .playerRenderer,
          Action.dispose .animation, Action.dispose .physics],
        true) ∧
    Action.clockStop ∉ (stop st).2.1 ∧
    Action.removeRendererDom ∉ (stop st).2.1 ∧
    (stop st).1.clock = st.clock := by
  have h : stop st =
      ({ st with isPlaying := false },
        [Action.stopHook .event,
          Action.dispose .loader, Action.dispose .event, Action.dispose .control,
          Action.dispose .audio, Action.dispose .playerRenderer,
          Action.dispose .animation, Action.dispose .physics],
        true) := by
    simp [stop, hp, hr]
  refine ⟨h, ?_, ?_, ?_⟩ <;> rw [h] <;> simp

/-- C10 witness: stop on the concrete mid-bootstrap state. -/
theorem C10_witness :
    stop stMid =
      ({ stMid with isPlaying := false },
        [Action.stopHook .event,
          Action.dispose .loader, Action.dispose .event, Action.dispose .control,
          Action.dispose .audio, Action.dispose .playerRenderer,
          Action.dispose .animation, Action.dispose .physics],
        true) ∧
    Action.clockStop ∉ (stop stMid).2.1 ∧
    Action.removeRendererDom ∉ (stop stMid).2.1 ∧
    (stop stMid).1.clock = stMid.clock :=
  C10_stop_midbootstrap_throws stMid rfl rfl

end ShadowPlayer
